import Mathlib

/-
Verification of the log-serving HTTP handlers in `web/logs.go` of dozzle.

The three handlers (`downloadLogs`, `fetchLogsBetweenDates`, `streamLogs`)
are straight-line Go code whose only effects are: HTTP response writes,
header manipulation, calls into the docker client (container lookup and
feed opening), gzip-writer manipulation, and server-side logging.  We embed
each handler as a pure function from the request data plus oracles for the
effectful calls (container lookup result, feed-open result, the list of
values delivered on the event channel, the pending value on the error
channel) to the list of observable actions the handler performs, in order.
-/

deriving instance DecidableEq for Except

namespace Dozzle

/-- Modelled from the spec: the stream-selection constants live in the
`docker` package of this repository, which is not among the provided
sources.  The spec describes the mask as a set over stdout and stderr, so
the two flags are distinct nonzero bits, as in the Go `stdcopy` convention. -/
def STDOUT : Nat := 1

/-- Modelled from the spec: the stderr bit of the stream-selection mask. -/
def STDERR : Nat := 2

/-- Modelled from the spec: both bits set, used by the download handler. -/
def STDALL : Nat := STDOUT ||| STDERR

/-- A docker container as the handlers see it: its identifier, display name
and whether it was started with a TTY (fields `ID`, `Name`, `Tty`). -/
structure Container where
  id : String
  name : String
  tty : Bool
deriving Repr, DecidableEq

/-- A Go `error` value as the handlers inspect it: the end-of-stream
sentinel `io.EOF`, the cancellation sentinel `context.Canceled`, or any
other error carrying a message. -/
inductive GoError where
  | eof
  | canceled
  | other (msg : String)
deriving Repr, DecidableEq

/-- The string `err.Error()` returns, used when an error message is echoed
into an HTTP error response. -/
def GoError.message : GoError → String
  | .eof => "EOF"
  | .canceled => "context canceled"
  | .other msg => msg

/-- An event from the docker event generator as the handlers consume it:
its `Timestamp` field (an int64, the resumption position) together with the
outcome of JSON-serializing it (`json.Marshal` / `Encoder.Encode` succeeds
with some bytes or fails with an error message).  Serialization is opaque
to the handler, so its outcome is carried as data. -/
structure LogEvent where
  timestamp : Int
  marshal : Except String String
deriving Repr, DecidableEq

/-- One observable action of a handler, in the order performed. -/
inductive Action where
  | setHeader (key value : String)
  | addHeader (key value : String)
  | httpError (msg : String) (status : Nat)
  | findContainer (id : String)
  | openLogFeed (id : String) (lastEventId : String) (stdTypes : Nat)
  | openLogFeedBetween (id : String) (fromT toT : Int) (stdTypes : Nat)
  | newGzipWriter
  | setGzipName (name : String)
  | setGzipComment (comment : String)
  | copyLogs (tty : Bool)
  | closeGzip
  | write (bytes : String)
  | flush
  | logError (msg : String)
  | logDebug (msg : String)
deriving Repr, DecidableEq

/-- The bytes of a write action, empty for every other action; concatenating
over a trace yields exactly the bytes the client receives. -/
def writesOf : List Action → String
  | [] => ""
  | .write s :: rest => s ++ writesOf rest
  | _ :: rest => writesOf rest

/-- Whether an action sends bytes to the client. -/
def Action.isClientWrite : Action → Bool
  | .write _ => true
  | _ => false

/-- The stream-selection mask built by both the range and the streaming
handler: start from zero, or in `STDOUT` when the `stdout` query parameter
is present, or in `STDERR` when `stderr` is present. -/
def stdTypesOf (hasStdout hasStderr : Bool) : Nat :=
  (if hasStdout then STDOUT else 0) ||| (if hasStderr then STDERR else 0)

/-- The request data the live-stream handler reads: the `id` URL
parameter, presence of the `stdout` and `stderr` query parameters, the
`lastEventId` query parameter and the `Last-Event-ID` request header
(absent is modelled as the empty string, as in Go). -/
structure StreamRequest where
  id : String
  hasStdout : Bool
  hasStderr : Bool
  queryLastEventId : String
  headerLastEventId : String
deriving Repr, DecidableEq

/-- The request data the range handler reads: the `id` URL parameter,
presence of `stdout` and `stderr`, and the raw `from` and `to` query
parameter strings. -/
structure RangeRequest where
  id : String
  hasStdout : Bool
  hasStderr : Bool
  fromRaw : String
  toRaw : String
deriving Repr, DecidableEq

/-- Resume-position resolution (lines 135-138): start from the
`Last-Event-ID` header, then overwrite with the `lastEventId` query
parameter whenever the query parameter is non-empty. -/
def resolveLastEventId (header query : String) : String :=
  if 0 < query.length then query else header

/-- The termination frame announcing that the container stopped. -/
def ContainerStoppedFrame : String := "event: container-stopped\ndata: end of stream\n\n"

/-- One iteration input of the live-stream select loop: either a value
delivered on the events channel or a tick of the 5-second ticker. -/
inductive StreamItem where
  | event (e : LogEvent)
  | tick
deriving Repr, DecidableEq

/-- The actions of one iteration of the live-stream select loop
(lines 158-177): for an event, write the `data:` line when serialization
succeeds (log the error otherwise), write the `id:` line when the
timestamp is positive, write the blank terminator line and flush; for a
ticker tick, write the ping comment line and flush. -/
def streamItemActions : StreamItem → List Action
  | .event e =>
      (match e.marshal with
        | .error msg => [.logError ("json encoding error while streaming " ++ msg)]
        | .ok buf => [.write ("data: " ++ buf ++ "\n")]) ++
      (if 0 < e.timestamp then [.write ("id: " ++ toString e.timestamp ++ "\n")] else []) ++
      [.write "\n", .flush]
  | .tick => [.write ":ping \n\n", .flush]

/-- The live-stream select loop over the sequence of delivered items; when
the events channel closes the loop logs a debug line and breaks. -/
def streamLoopActions : List StreamItem → List Action
  | [] => [.logDebug "stream closed"]
  | i :: rest => streamItemActions i ++ streamLoopActions rest

/-- The non-blocking drain of the generator error channel after the loop
(lines 180-192).  `none` means the channel held no value (the `default`
branch); `some none` means a nil error was delivered; `some (some e)`
means error `e` was delivered.  On `io.EOF` the container-stopped frame is
written and flushed; on a cancellation nothing happens; on any other error
it is logged server-side only. -/
def drainErrors (containerId : String) : Option (Option GoError) → List Action
  | none => []
  | some none => []
  | some (some .eof) =>
      [.logDebug ("container stopped: " ++ containerId),
       .write ContainerStoppedFrame, .flush]
  | some (some .canceled) => []
  | some (some (.other msg)) =>
      [.logError ("unknown error while streaming " ++ msg)]

/-- The live-stream handler `streamLogs` (lines 101-205).  `flusherOk` is
whether the response writer supports flushing; `findResult` is the outcome
of `FindContainer`; `openResult` the outcome of `ContainerLogs`; `items`
the sequence of loop inputs until the events channel closes; and
`pendingError` the state of the error channel at drain time. -/
def streamLogs (req : StreamRequest) (flusherOk : Bool)
    (findResult : Except String Container)
    (openResult : Except GoError Unit)
    (items : List StreamItem)
    (pendingError : Option (Option GoError)) : List Action :=
  let stdTypes := stdTypesOf req.hasStdout req.hasStderr
  if stdTypes = 0 then
    [.httpError "stdout or stderr is required" 400]
  else if flusherOk = false then
    [.httpError "Streaming unsupported!" 500]
  else
    .findContainer req.id ::
    match findResult with
    | .error msg => [.httpError msg 404]
    | .ok container =>
      [.setHeader "Content-Type" "text/event-stream",
       .setHeader "Cache-Control" "no-transform",
       .addHeader "Cache-Control" "no-cache",
       .setHeader "Connection" "keep-alive",
       .setHeader "X-Accel-Buffering" "no",
       .openLogFeed container.id
         (resolveLastEventId req.headerLastEventId req.queryLastEventId) stdTypes] ++
      match openResult with
      | .error .eof => [.write ContainerStoppedFrame, .flush]
      | .error e => [.httpError e.message 500]
      | .ok _ => streamLoopActions items ++ drainErrors container.id pendingError

/-- The time value the Go code keeps after `from, _ := time.Parse(...)`:
the parsed instant on success, the zero time (modelled as 0) on failure,
the error being discarded.  `parse` is the RFC3339 parsing oracle. -/
def parsedTime (parse : String → Except String Int) (s : String) : Int :=
  match parse s with
  | .ok t => t
  | .error _ => 0

/-- One event of the range handler loop (lines 90-97): `Encoder.Encode`
writes the JSON followed by a newline on success and logs on failure
(nothing reaches the client on failure, the encoder buffers). -/
def rangeItemActions (e : LogEvent) : List Action :=
  match e.marshal with
  | .error msg => [.logError ("json encoding error while streaming " ++ msg)]
  | .ok buf => [.write (buf ++ "\n")]

/-- The range handler loop over the events delivered until the channel
closes. -/
def rangeLoopActions : List LogEvent → List Action
  | [] => []
  | e :: rest => rangeItemActions e ++ rangeLoopActions rest

/-- The range handler `fetchLogsBetweenDates` (lines 53-99). -/
def fetchLogsBetweenDates (req : RangeRequest)
    (parse : String → Except String Int)
    (findResult : Except String Container)
    (openResult : Except GoError Unit)
    (events : List LogEvent) : List Action :=
  .setHeader "Content-Type" "application/ld+json; charset=UTF-8" ::
  let fromT := parsedTime parse req.fromRaw
  let toT := parsedTime parse req.toRaw
  let stdTypes := stdTypesOf req.hasStdout req.hasStderr
  if stdTypes = 0 then
    [.httpError "stdout or stderr is required" 400]
  else
    .findContainer req.id ::
    match findResult with
    | .error msg => [.httpError msg 404]
    | .ok container =>
      .openLogFeedBetween container.id fromT toT stdTypes ::
      match openResult with
      | .error e => [.httpError e.message 500]
      | .ok _ => rangeLoopActions events

/-- The download handler `downloadLogs` (lines 23-51).  `nowFormatted` is
`now.Format` of the fixed layout and `nowT` the instant itself; the
deferred `zw.Close()` runs on every path after the gzip writer exists. -/
def downloadLogs (id nowFormatted : String) (nowT : Int)
    (findResult : Except String Container)
    (openResult : Except GoError Unit) : List Action :=
  .findContainer id ::
  match findResult with
  | .error msg => [.httpError msg 400]
  | .ok container =>
    [.setHeader "Content-Disposition"
       ("attachment; filename=" ++ container.name ++ "-" ++ nowFormatted ++ ".log.gz"),
     .setHeader "Content-Type" "application/gzip",
     .newGzipWriter,
     .setGzipName (container.name ++ "-" ++ nowFormatted ++ ".log"),
     .setGzipComment "Logs generated by Dozzle",
     .openLogFeedBetween id 0 nowT STDALL] ++
    match openResult with
    | .error e => [.httpError e.message 500, .closeGzip]
    | .ok _ => [.copyLogs container.tty, .closeGzip]

/-- Modelled from the spec: a Go `time.NewTicker` with the given period
fires at each positive multiple of the period, so the number of fires
within an idle interval of the given duration is the integer quotient. -/
def tickerFiresWithin (period duration : Nat) : Nat := duration / period

/-- The shapes of client writes the streaming phase may produce: the three
lines of an event frame, the ping frame, and the container-stopped frame. -/
def goodStreamWrite (s : String) : Prop :=
  (∃ buf, s = "data: " ++ buf ++ "\n") ∨
  (∃ n : Int, s = "id: " ++ toString n ++ "\n") ∨
  s = "\n" ∨ s = ":ping \n\n" ∨ s = ContainerStoppedFrame

/-- The event frame laid out as claim C3 states it: the `data:` line
optionally PRECEDED by the `id:` line, the id line present exactly when
the position is non-zero.  Spec-side definition, for comparison with the
bytes the code writes. -/
def claimedEventFrame (e : LogEvent) (buf : String) : String :=
  (if e.timestamp ≠ 0 then "id: " ++ toString e.timestamp ++ "\n" else "") ++
  ("data: " ++ buf ++ "\n") ++ "\n"

/-- The bytes the code writes for one event delivered on the live stream. -/
def codeEventFrame (e : LogEvent) : String :=
  writesOf (streamItemActions (.event e))

/-- Resume-position resolution as claim C7 states it: prefer the header,
use the query parameter only when the header is absent.  Spec-side
definition, for comparison with `resolveLastEventId` from the code. -/
def claimedResolveLastEventId (header query : String) : String :=
  if 0 < header.length then header else query

/-- C2: on both the streaming and the range endpoint, a request with
neither `stdout` nor `stderr` present yields exactly a 400 response; the
trace equations show no container lookup and no feed-open action occurs. -/
theorem C2_empty_mask_rejected_before_lookup
    (sreq : StreamRequest) (rreq : RangeRequest)
    (hs1 : sreq.hasStdout = false) (hs2 : sreq.hasStderr = false)
    (hr1 : rreq.hasStdout = false) (hr2 : rreq.hasStderr = false) :
    (∀ flusherOk findResult openResult items pending,
      streamLogs sreq flusherOk findResult openResult items pending =
        [Action.httpError "stdout or stderr is required" 400]) ∧
    (∀ parse findResult openResult events,
      fetchLogsBetweenDates rreq parse findResult openResult events =
        [Action.setHeader "Content-Type" "application/ld+json; charset=UTF-8",
         Action.httpError "stdout or stderr is required" 400]) := by
  constructor
  · intro flusherOk findResult openResult items pending
    simp [streamLogs, stdTypesOf, STDOUT, STDERR, hs1, hs2]
  · intro parse findResult openResult events
    simp [fetchLogsBetweenDates, stdTypesOf, STDOUT, STDERR, hr1, hr2]

/-- Witness for C2 at a concrete request with both flags absent. -/
theorem C2_empty_mask_rejected_before_lookup_witness :
    streamLogs ⟨"abc", false, false, "", ""⟩ true (.error "nf") (.ok ()) [] none =
      [Action.httpError "stdout or stderr is required" 400] :=
  (C2_empty_mask_rejected_before_lookup ⟨"abc", false, false, "", ""⟩
      ⟨"abc", false, false, "", ""⟩ rfl rfl rfl rfl).1 true (.error "nf") (.ok ()) [] none

/-- C5: a live-stream request whose feed-open call reports end-of-stream
produces exactly the header actions, the feed-open, the container-stopped
frame and a flush — independent of the generator inputs `items` and
`pendingError`, so no streaming loop iteration ever runs — and the
container-stopped frame is the only client write of the whole trace. -/
theorem C5_stream_already_stopped
    (req : StreamRequest) (c : Container)
    (items : List StreamItem) (pending : Option (Option GoError))
    (hmask : stdTypesOf req.hasStdout req.hasStderr ≠ 0) :
    streamLogs req true (.ok c) (.error GoError.eof) items pending =
      [Action.findContainer req.id,
       Action.setHeader "Content-Type" "text/event-stream",
       Action.setHeader "Cache-Control" "no-transform",
       Action.addHeader "Cache-Control" "no-cache",
       Action.setHeader "Connection" "keep-alive",
       Action.setHeader "X-Accel-Buffering" "no",
       Action.openLogFeed c.id (resolveLastEventId req.headerLastEventId req.queryLastEventId)
         (stdTypesOf req.hasStdout req.hasStderr),
       Action.write ContainerStoppedFrame, Action.flush] ∧
    (streamLogs req true (.ok c) (.error GoError.eof) items pending).filter
        (fun a => a.isClientWrite) = [Action.write ContainerStoppedFrame] := by
  have h : streamLogs req true (.ok c) (.error GoError.eof) items pending =
      [Action.findContainer req.id,
       Action.setHeader "Content-Type" "text/event-stream",
       Action.setHeader "Cache-Control" "no-transform",
       Action.addHeader "Cache-Control" "no-cache",
       Action.setHeader "Connection" "keep-alive",
       Action.setHeader "X-Accel-Buffering" "no",
       Action.openLogFeed c.id (resolveLastEventId req.headerLastEventId req.queryLastEventId)
         (stdTypesOf req.hasStdout req.hasStderr),
       Action.write ContainerStoppedFrame, Action.flush] := by
    simp [streamLogs, hmask]
  refine ⟨h, ?_⟩
  rw [h]
  simp [List.filter, Action.isClientWrite]

/-- Witness for C5 at a concrete request, container, loop input and
pending error. -/
theorem C5_stream_already_stopped_witness :
    streamLogs ⟨"abc", true, false, "", ""⟩ true (.ok ⟨"cid", "box", false⟩)
        (.error GoError.eof) [StreamItem.tick] (some (some GoError.eof)) =
      [Action.findContainer "abc",
       Action.setHeader "Content-Type" "text/event-stream",
       Action.setHeader "Cache-Control" "no-transform",
       Action.addHeader "Cache-Control" "no-cache",
       Action.setHeader "Connection" "keep-alive",
       Action.setHeader "X-Accel-Buffering" "no",
       Action.openLogFeed "cid" (resolveLastEventId "" "") (stdTypesOf true false),
       Action.write ContainerStoppedFrame, Action.flush] :=
  (C5_stream_already_stopped ⟨"abc", true, false, "", ""⟩ ⟨"cid", "box", false⟩
      [StreamItem.tick] (some (some GoError.eof)) (by decide)).1

/-- C7 counterexample: with the header set to "111" and the query
parameter set to "222", the code resolves to the query parameter, while
the claim (header preferred) resolves to the header. -/
theorem C7_counterexample :
    resolveLastEventId "111" "222" = "222" ∧
    claimedResolveLastEventId "111" "222" = "111" ∧
    resolveLastEventId "111" "222" ≠ claimedResolveLastEventId "111" "222" := by
  decide

/-- C7 amended: the handler prefers the `lastEventId` query parameter,
falls back to the `Last-Event-ID` header only when the query parameter is
absent (empty), and yields the empty string — meaning "now" for the feed —
when both are absent. -/
theorem C7_amended_resolution (header query : String) :
    (0 < query.length → resolveLastEventId header query = query) ∧
    (query.length = 0 → resolveLastEventId header query = header) ∧
    resolveLastEventId "" "" = "" := by
  refine ⟨fun h => ?_, fun h => ?_, rfl⟩
  · simp [resolveLastEventId, h]
  · simp [resolveLastEventId, h]

/-- Witness for C7 amended at concrete header and query values. -/
theorem C7_amended_resolution_witness :
    resolveLastEventId "aaa" "bbb" = "bbb" :=
  (C7_amended_resolution "aaa" "bbb").1 (by decide)

/-- C8: on the download endpoint an unknown container yields 400, a
feed-open failure yields 500, and in both error traces no client-body
write occurs at all, so the classification precedes any response bytes. -/
theorem C8_download_error_classification
    (id nowFormatted : String) (nowT : Int) (c : Container) (msg : String) (e : GoError) :
    (∀ openResult, downloadLogs id nowFormatted nowT (.error msg) openResult =
      [Action.findContainer id, Action.httpError msg 400]) ∧
    downloadLogs id nowFormatted nowT (.ok c) (.error e) =
      [Action.findContainer id,
       Action.setHeader "Content-Disposition"
         ("attachment; filename=" ++ c.name ++ "-" ++ nowFormatted ++ ".log.gz"),
       Action.setHeader "Content-Type" "application/gzip",
       Action.newGzipWriter,
       Action.setGzipName (c.name ++ "-" ++ nowFormatted ++ ".log"),
       Action.setGzipComment "Logs generated by Dozzle",
       Action.openLogFeedBetween id 0 nowT STDALL,
       Action.httpError e.message 500, Action.closeGzip] ∧
    (∀ openResult, (downloadLogs id nowFormatted nowT (.error msg) openResult).filter
        (fun a => a.isClientWrite) = []) ∧
    (downloadLogs id nowFormatted nowT (.ok c) (.error e)).filter
        (fun a => a.isClientWrite) = [] := by
  refine ⟨fun openResult => rfl, rfl, fun openResult => rfl, ?_⟩
  simp [downloadLogs, List.filter, Action.isClientWrite]

/-- C9: every successful download response carries the attachment
disposition built from the container name and the formatted current time,
the gzip metadata name is the same stem with the `.gz` extension stripped,
and the disposition value equals the metadata name with `.gz` appended. -/
theorem C9_download_filename
    (id nowFormatted : String) (nowT : Int) (c : Container)
    (openResult : Except GoError Unit) :
    Action.setHeader "Content-Disposition"
        ("attachment; filename=" ++ c.name ++ "-" ++ nowFormatted ++ ".log.gz")
      ∈ downloadLogs id nowFormatted nowT (.ok c) openResult ∧
    Action.setGzipName (c.name ++ "-" ++ nowFormatted ++ ".log")
      ∈ downloadLogs id nowFormatted nowT (.ok c) openResult ∧
    "attachment; filename=" ++ c.name ++ "-" ++ nowFormatted ++ ".log.gz" =
      "attachment; filename=" ++ ((c.name ++ "-" ++ nowFormatted ++ ".log") ++ ".gz") := by
  refine ⟨?_, ?_, ?_⟩
  · cases openResult <;> simp [downloadLogs]
  · cases openResult <;> simp [downloadLogs]
  · simp [String.append_assoc]

/-- Every client write of one loop iteration is an event-frame line or the
ping frame. -/
theorem write_mem_streamItem_good (i : StreamItem) (s : String)
    (h : Action.write s ∈ streamItemActions i) : goodStreamWrite s := by
  unfold goodStreamWrite
  cases i with
  | tick =>
    simp [streamItemActions] at h
    exact Or.inr (Or.inr (Or.inr (Or.inl h)))
  | event e =>
    rcases e with ⟨ts, m⟩
    cases m with
    | ok buf =>
      by_cases hts : 0 < ts
      · simp [streamItemActions, hts] at h
        rcases h with h | h | h
        · exact Or.inl ⟨buf, h⟩
        · exact Or.inr (Or.inl ⟨ts, h⟩)
        · exact Or.inr (Or.inr (Or.inl h))
      · simp [streamItemActions, hts] at h
        rcases h with h | h
        · exact Or.inl ⟨buf, h⟩
        · exact Or.inr (Or.inr (Or.inl h))
    | error msg =>
      by_cases hts : 0 < ts
      · simp [streamItemActions, hts] at h
        rcases h with h | h
        · exact Or.inr (Or.inl ⟨ts, h⟩)
        · exact Or.inr (Or.inr (Or.inl h))
      · simp [streamItemActions, hts] at h
        exact Or.inr (Or.inr (Or.inl h))

/-- Every client write of the whole select loop is an event-frame line or
the ping frame. -/
theorem write_mem_streamLoop_good (items : List StreamItem) (s : String)
    (h : Action.write s ∈ streamLoopActions items) : goodStreamWrite s := by
  induction items with
  | nil => simp [streamLoopActions] at h
  | cons i rest ih =>
    rw [streamLoopActions, List.mem_append] at h
    rcases h with h | h
    · exact write_mem_streamItem_good i s h
    · exact ih h

/-- Every client write of the error-channel drain is the
container-stopped frame. -/
theorem write_mem_drain_good (cid : String) (pending : Option (Option GoError)) (s : String)
    (h : Action.write s ∈ drainErrors cid pending) : goodStreamWrite s := by
  unfold goodStreamWrite
  rcases pending with _ | _ | e
  · simp [drainErrors] at h
  · simp [drainErrors] at h
  · cases e with
    | eof =>
      simp [drainErrors] at h
      exact Or.inr (Or.inr (Or.inr (Or.inr h)))
    | canceled => simp [drainErrors] at h
    | other msg => simp [drainErrors] at h

/-- C1: after the events channel closes, the non-blocking drain of the
error channel writes the container-stopped frame exactly on the
end-of-stream sentinel, logs server-side only on any other
non-cancellation error, and does nothing on a cancellation, a nil error or
an empty channel; moreover every client write of the streaming phase (the
loop plus the drain) is an event-frame line, the ping frame or the
container-stopped frame. -/
theorem C1_post_stream_outputs (cid msg : String)
    (items : List StreamItem) (pending : Option (Option GoError)) :
    drainErrors cid (some (some GoError.eof)) =
      [Action.logDebug ("container stopped: " ++ cid),
       Action.write ContainerStoppedFrame, Action.flush] ∧
    drainErrors cid (some (some (GoError.other msg))) =
      [Action.logError ("unknown error while streaming " ++ msg)] ∧
    drainErrors cid (some (some GoError.canceled)) = [] ∧
    drainErrors cid (some none) = [] ∧
    drainErrors cid none = [] ∧
    (∀ s, Action.write s ∈ streamLoopActions items ++ drainErrors cid pending →
      goodStreamWrite s) := by
  refine ⟨rfl, rfl, rfl, rfl, rfl, fun s hs => ?_⟩
  rcases List.mem_append.mp hs with h | h
  · exact write_mem_streamLoop_good items s h
  · exact write_mem_drain_good cid pending s h

/-- Witness for C1: the container-stopped frame written by the drain of a
pending end-of-stream sentinel is among the allowed outputs. -/
theorem C1_post_stream_outputs_witness :
    goodStreamWrite ContainerStoppedFrame :=
  (C1_post_stream_outputs "abc" "boom" [] (some (some GoError.eof))).2.2.2.2.2
    ContainerStoppedFrame (by decide)

/-- C3 counterexample: for an event with position 5 the code writes the
`id:` line AFTER the `data:` line, not before it as the claim states; and
for an event with the non-zero position -1 the code omits the `id:` line
altogether (the code tests positivity, not non-zeroness). -/
theorem C3_counterexample :
    codeEventFrame ⟨5, Except.ok "x"⟩ ≠ claimedEventFrame ⟨5, Except.ok "x"⟩ "x" ∧
    codeEventFrame ⟨-1, Except.ok "x"⟩ ≠ claimedEventFrame ⟨-1, Except.ok "x"⟩ "x" := by
  decide

/-- C3 amended: for every event whose serialization succeeds, the bytes
written are the `data:` line, FOLLOWED by the `id:` line exactly when the
position is positive, terminated by a blank line. -/
theorem C3_amended_event_frame (e : LogEvent) (buf : String)
    (h : e.marshal = .ok buf) :
    codeEventFrame e =
      ("data: " ++ buf ++ "\n") ++
      ((if 0 < e.timestamp then "id: " ++ toString e.timestamp ++ "\n" else "") ++ "\n") := by
  rcases e with ⟨ts, m⟩
  simp only at h
  subst h
  by_cases hts : 0 < ts <;>
    simp [codeEventFrame, streamItemActions, writesOf, hts]

/-- Witness for C3 amended at a concrete event with position 5. -/
theorem C3_amended_event_frame_witness :
    codeEventFrame ⟨5, Except.ok "x"⟩ = "data: x\nid: 5\n\n" :=
  C3_amended_event_frame ⟨5, Except.ok "x"⟩ "x" rfl

/-- C4 counterexample: the bytes of the liveness frame are not
`: ping \n\n` — the code writes no space between the colon and `ping`. -/
theorem C4_counterexample :
    writesOf (streamItemActions StreamItem.tick) ≠ ": ping \n\n" := by
  decide

/-- C4 amended: a ticker fire makes the handler write the liveness frame
`:ping \n\n` (no space after the colon) followed by a flush, the 5-second
ticker fires exactly once within a 6-second idle interval, and the loop
fed exactly those fires writes exactly one liveness frame. -/
theorem C4_amended_ping :
    streamItemActions StreamItem.tick = [Action.write ":ping \n\n", Action.flush] ∧
    tickerFiresWithin 5 6 = 1 ∧
    (streamLoopActions (List.replicate (tickerFiresWithin 5 6) StreamItem.tick)).count
        (Action.write ":ping \n\n") = 1 := by
  refine ⟨rfl, rfl, ?_⟩
  decide

/-- C6 counterexample: on the live stream, an event with position 3 whose
serialization fails still causes client output — the `id:` line and the
frame terminator are written, contradicting "nothing of it is written". -/
theorem C6_counterexample :
    writesOf (streamItemActions (StreamItem.event ⟨3, Except.error "boom"⟩)) =
      "id: 3\n" ++ "\n" ∧
    writesOf (streamItemActions (StreamItem.event ⟨3, Except.error "boom"⟩)) ≠ "" := by
  decide

/-- C6 amended: when serializing an event fails, the failure is logged
and the loop continues with the next event on both endpoints; on the
range endpoint nothing of the event reaches the client, while on the live
stream the `data:` line is omitted but the `id:` line (when the position
is positive) and the blank terminator are still written. -/
theorem C6_amended_encoding_failure (msg : String) (e : LogEvent)
    (rest : List StreamItem) (restEvents : List LogEvent)
    (h : e.marshal = .error msg) :
    rangeItemActions e = [Action.logError ("json encoding error while streaming " ++ msg)] ∧
    streamItemActions (.event e) =
      Action.logError ("json encoding error while streaming " ++ msg) ::
      ((if 0 < e.timestamp then [Action.write ("id: " ++ toString e.timestamp ++ "\n")]
        else []) ++ [Action.write "\n", Action.flush]) ∧
    streamLoopActions (StreamItem.event e :: rest) =
      streamItemActions (.event e) ++ streamLoopActions rest ∧
    rangeLoopActions (e :: restEvents) = rangeItemActions e ++ rangeLoopActions restEvents := by
  rcases e with ⟨ts, m⟩
  simp only at h
  subst h
  exact ⟨rfl, rfl, rfl, rfl⟩

/-- Witness for C6 amended at a concrete failing event. -/
theorem C6_amended_encoding_failure_witness :
    rangeItemActions ⟨3, Except.error "boom"⟩ =
      [Action.logError ("json encoding error while streaming " ++ "boom")] :=
  (C6_amended_encoding_failure "boom" ⟨3, Except.error "boom"⟩ [] [] rfl).1

/-- C10: on the range endpoint the `from`/`to` parse errors are discarded
and the zero time stands in for an unparsable bound, and for every
well-formed request with a non-empty mask the trace proceeds to the
feed-open and the event loop no matter what the parse oracle returned —
no rejection ever happens on account of the timestamps. -/
theorem C10_range_dates_never_rejected
    (req : RangeRequest) (parse : String → Except String Int)
    (c : Container) (events : List LogEvent)
    (hmask : stdTypesOf req.hasStdout req.hasStderr ≠ 0) :
    (∀ s msg, parse s = .error msg → parsedTime parse s = 0) ∧
    fetchLogsBetweenDates req parse (.ok c) (.ok ()) events =
      [Action.setHeader "Content-Type" "application/ld+json; charset=UTF-8",
       Action.findContainer req.id,
       Action.openLogFeedBetween c.id (parsedTime parse req.fromRaw)
         (parsedTime parse req.toRaw) (stdTypesOf req.hasStdout req.hasStderr)] ++
      rangeLoopActions events := by
  constructor
  · intro s msg h
    simp [parsedTime, h]
  · simp [fetchLogsBetweenDates, hmask]

/-- Witness for C10 at a concrete request whose bounds both fail to
parse. -/
theorem C10_range_dates_never_rejected_witness :
    parsedTime (fun _ => Except.error "bad") "2020-99-99" = 0 :=
  (C10_range_dates_never_rejected ⟨"abc", true, false, "2020-99-99", ""⟩
      (fun _ => Except.error "bad") ⟨"cid", "box", false⟩ [] (by decide)).1
    "2020-99-99" "bad" rfl

end Dozzle
